import Mathlib

/-!
Verification of reuse_ollama_for_ramalama.py, a script that scans the
Ollama manifest tree and publishes, for every discovered model, a symlink
in the ramalama model directory pointing at the shared content-addressed
blob file; a reset mode removes the previously created symlinks.

The script is embedded shallowly:

* Python string operations (split, replace, startswith) are modelled over
  the character lists underlying Lean strings, so that every definition is
  executable by kernel reduction.
* Filesystem reads are explicit inputs: a manifest file on disk is a value
  of FileRead (missing, malformed JSON, or parsed); the target directory
  is the list of entries an os.walk of it reports, each a regular file, a
  file-level symlink (reported among the walk's files), or a symlink to a
  directory (reported among the walk's dirs, which the file loop of the
  script never examines); existence and directory-ness of source paths are
  oracle functions on paths.
* Python exceptions are Except values or error components of the result;
  the printed diagnostics of get_model_blob are returned alongside its
  result.
-/

/-- Python s.startswith(pre): pre is a literal prefix of s. -/
def py_startswith (s pre : String) : Bool :=
  pre.data.isPrefixOf s.data

/-- Splitting a character list on a separator character, with Python
semantics for str.split: always at least one field, empty fields kept. -/
def splitChars (sep : Char) : List Char → List (List Char)
  | [] => [[]]
  | c :: cs =>
    let rest := splitChars sep cs
    if c = sep then [] :: rest
    else match rest with
      | [] => [[c]]
      | r :: rs => (c :: r) :: rs

/-- Python s.split(sep) for a single-character separator. -/
def py_split (sep : Char) (s : String) : List String :=
  (splitChars sep s.data).map fun l => ⟨l⟩

/-- One left-to-right pass replacing every non-overlapping occurrence of
pat by rep. The fuel argument makes the recursion structural; it is called
with fuel equal to the length of the scanned list, which suffices since
each step consumes at least one character. -/
def replaceAux (pat rep : List Char) : Nat → List Char → List Char
  | _, [] => []
  | 0, s => s
  | n + 1, c :: cs =>
    if pat.isPrefixOf (c :: cs) && !pat.isEmpty then
      rep ++ replaceAux pat rep n ((c :: cs).drop pat.length)
    else
      c :: replaceAux pat rep n cs

/-- Python s.replace(pat, rep) for a non-empty pattern (the script only
calls it with the fixed pattern "sha256:"). -/
def py_replace (s pat rep : String) : String :=
  ⟨replaceAux pat.data rep.data s.data.length s.data⟩

/-- pathlib joining dir / Path(rel): Path("") is the path "." and joining
"." leaves dir unchanged; an absolute rel discards dir entirely; otherwise
rel is appended after a separator (dot-segment normalisation beyond the
Path("") case is not modelled: the script joins model names and digest
filenames). -/
def pathJoin (dir rel : String) : String :=
  if rel = "" then dir
  else if py_startswith rel "/" then rel
  else dir ++ "/" ++ rel

/-- os.path.join(root, name) for a non-absolute name and a root without a
trailing separator, as produced by os.walk. -/
def os_path_join (root name : String) : String :=
  root ++ "/" ++ name

/-- Source: get_model_name(filename). Splits the path on "/" and returns
parts[-2] + ":" + parts[-1]; with fewer than two components the negative
index raises IndexError, modelled as none. -/
def get_model_name (filename : String) : Option String :=
  let parts := py_split '/' filename
  match parts.reverse with
  | tag :: name :: _ => some (name ++ ":" ++ tag)
  | _ => none

/-- Claim C6: for every manifest path with at least two slash-separated
components, of the shape .../name/tag, get_model_name returns the string
name:tag formed from the last two path segments joined by a colon. -/
theorem get_model_name_last_two (f : String) (ps : List String) (name tag : String)
    (h : py_split '/' f = ps ++ [name, tag]) :
    get_model_name f = some (name ++ ":" ++ tag) := by
  unfold get_model_name
  rw [h]
  simp [List.reverse_append]

/-- Witness for C6 at a concrete four-component manifest path. -/
theorem get_model_name_last_two_witness :
    get_model_name "registry.ollama.ai/library/llama3/latest" = some "llama3:latest" := by
  rw [get_model_name_last_two "registry.ollama.ai/library/llama3/latest"
    ["registry.ollama.ai", "library"] "llama3" "latest" (by decide)]
  decide

/-- One layer descriptor of a manifest JSON: a dictionary whose mediaType
and digest keys may each be absent (layer.get returns None or a default). -/
structure Layer where
  mediaType : Option String
  digest : Option String
deriving DecidableEq

/-- A parsed manifest JSON document; data.get("layers", []) is modelled by
the layers field, empty when the key is absent. -/
structure ManifestJson where
  layers : List Layer
deriving DecidableEq

/-- The outcome of opening and json.load-ing a manifest path: the file may
be missing (FileNotFoundError), hold invalid JSON (JSONDecodeError, with
the rendered error message), or parse successfully. -/
inductive FileRead where
  | missing
  | malformed (err : String)
  | parsed (data : ManifestJson)
deriving DecidableEq

/-- The media type marking the model payload layer. -/
def modelMediaType : String := "application/vnd.ollama.image.model"

/-- Source: get_model_blob(model_path). The try block reads and parses the
JSON, scans layers in order for the first one whose mediaType equals the
model media type, and returns its digest (default "" when the key is
absent) with "sha256:" replaced by "sha256-". The two except handlers
catch FileNotFoundError and JSONDecodeError; every other path prints a
diagnostic and returns None. Result: the returned value paired with the
printed lines. -/
def get_model_blob (model_path : String) (fr : FileRead) : Option String × List String :=
  match fr with
  | FileRead.missing => (none, ["File not found at path: " ++ model_path])
  | FileRead.malformed e => (none, ["JSON decode error in file: " ++ e])
  | FileRead.parsed data =>
    match data.layers.find? (fun layer => layer.mediaType == some modelMediaType) with
    | some layer => (some (py_replace (layer.digest.getD "") "sha256:" "sha256-"), [])
    | none => (none, ["No matching layer found."])

/-- Helper: find? returns the head of the matching suffix when everything
before it fails the predicate. -/
theorem find_eq_of_split {α : Type} (p : α → Bool) (pre post : List α) (a : α)
    (hpre : ∀ x ∈ pre, p x = false) (ha : p a = true) :
    (pre ++ a :: post).find? p = some a := by
  induction pre with
  | nil => simp [List.find?_cons, ha]
  | cons x xs ih =>
    have hx : p x = false := hpre x (List.mem_cons_self x xs)
    simp only [List.cons_append, List.find?_cons, hx]
    exact ih fun y hy => hpre y (List.mem_cons_of_mem x hy)

/-- Claim C7: for a manifest whose layers contain a first entry (in scan
order) with the model media type, get_model_blob returns that entry's
digest with the "sha256:" prefix rewritten to "sha256-". -/
theorem get_model_blob_first_match (p : String) (data : ManifestJson)
    (pre post : List Layer) (layer : Layer) (d : String)
    (hsplit : data.layers = pre ++ layer :: post)
    (hpre : ∀ l ∈ pre, l.mediaType ≠ some modelMediaType)
    (hmt : layer.mediaType = some modelMediaType)
    (hd : layer.digest = some d) :
    (get_model_blob p (FileRead.parsed data)).1 = some (py_replace d "sha256:" "sha256-") := by
  have hfind : data.layers.find? (fun l => l.mediaType == some modelMediaType) = some layer := by
    rw [hsplit]
    refine find_eq_of_split _ pre post layer (fun x hx => ?_) (by simp [hmt])
    simpa using hpre x hx
  simp [get_model_blob, hfind, hd]

/-- Witness for C7: a single matching layer with digest sha256:abc123
resolves to the blob filename sha256-abc123. -/
theorem get_model_blob_first_match_witness :
    (get_model_blob "m" (FileRead.parsed
      (ManifestJson.mk [Layer.mk (some modelMediaType) (some "sha256:abc123")]))).1
      = some "sha256-abc123" := by
  rw [get_model_blob_first_match "m"
    (ManifestJson.mk [Layer.mk (some modelMediaType) (some "sha256:abc123")])
    [] [] (Layer.mk (some modelMediaType) (some "sha256:abc123")) "sha256:abc123"
    rfl (by simp) rfl rfl]
  decide

/-- Claim C8: for a missing manifest file or one whose contents are not
valid JSON, get_model_blob raises nothing (it is a total function into a
result-and-log pair): it returns None together with exactly one printed
diagnostic line. -/
theorem get_model_blob_error_paths (p e : String) :
    (get_model_blob p FileRead.missing).1 = none ∧
    (get_model_blob p FileRead.missing).2 = ["File not found at path: " ++ p] ∧
    (get_model_blob p (FileRead.malformed e)).1 = none ∧
    (get_model_blob p (FileRead.malformed e)).2 = ["JSON decode error in file: " ++ e] :=
  ⟨rfl, rfl, rfl, rfl⟩

/-- One entry os.walk reports inside the target directory, with its full
path. With the default followlinks=False, os.walk classifies a symlink by
what it points at: a symlink to a directory appears among the dirs of its
walk tuple (dirLink, not traversed), while a regular file or any other
symlink — including a broken one — appears among the files (file and
fileLink, the latter carrying its literal link text from os.readlink).
Plain directories are traversed and carry no entry of their own. -/
inductive Entry where
  | file
  | fileLink (source : String)
  | dirLink (source : String)
deriving DecidableEq

/-- The target directory: every entry found by recursively walking it,
keyed by its full path (os.path.join of walk root and name). -/
abbrev Dir := List (String × Entry)

/-- The test the reset loop effectively applies to one walked entry: the
loop iterates only the files component of each walk tuple, so only a
file-level symlink is examined at all, and it is deleted exactly when its
immediate link target, read without deep resolution, starts with the
blob-store directory path as a string. A dirLink is never examined. -/
def isOllamaFileLink (blobs_dir : String) (e : String × Entry) : Bool :=
  match e.2 with
  | Entry.fileLink source => py_startswith source blobs_dir
  | _ => false

/-- Source: reset_symlinks(directory, blobs_dir). Walks the directory and,
for each path in the files component, unlinks it when it is a symlink
whose link text starts with the blob-store path. Symlinks to directories
sit in the dirs component and are never tested or deleted. Result: the
entries that remain paired with the entries that were deleted (each
deletion also prints a line, one per deleted entry). -/
def reset_symlinks (directory : Dir) (blobs_dir : String) : Dir × Dir :=
  (directory.filter (fun e => !isOllamaFileLink blobs_dir e),
   directory.filter (fun e => isOllamaFileLink blobs_dir e))

/-- Counterexample to C3 as stated: a symlink to a directory whose link
text starts with the blob-store path is found by the walk but reset
deletes nothing — the iff over all walked entries fails. -/
theorem reset_ignores_dir_symlink :
    (reset_symlinks [("t/L", Entry.dirLink "/blobs")] "/blobs").1
      = [("t/L", Entry.dirLink "/blobs")] ∧
    (reset_symlinks [("t/L", Entry.dirLink "/blobs")] "/blobs").2 = [] ∧
    py_startswith "/blobs" "/blobs" = true := by
  decide

/-- Claim C3 (amended): among the walked entries, reset deletes exactly
the file-level symlinks whose link target starts with the blob-store path;
regular files and symlinks to directories always survive, the latter even
when their target matches. -/
theorem reset_symlinks_deletes_iff (blobs_dir : String) (d : Dir) :
    (∀ e ∈ d, (e ∈ (reset_symlinks d blobs_dir).1 ↔ isOllamaFileLink blobs_dir e = false)) ∧
    (∀ e, e ∈ (reset_symlinks d blobs_dir).2 ↔ e ∈ d ∧ isOllamaFileLink blobs_dir e = true) ∧
    (∀ p, (p, Entry.file) ∈ d → (p, Entry.file) ∈ (reset_symlinks d blobs_dir).1) ∧
    (∀ p s, (p, Entry.dirLink s) ∈ d → (p, Entry.dirLink s) ∈ (reset_symlinks d blobs_dir).1) := by
  refine ⟨fun e he => ?_, fun e => ?_, fun p hp => ?_, fun p s hp => ?_⟩
  · simp [reset_symlinks, List.mem_filter, he]
  · simp [reset_symlinks, List.mem_filter]
  · simp [reset_symlinks, List.mem_filter, hp, isOllamaFileLink]
  · simp [reset_symlinks, List.mem_filter, hp, isOllamaFileLink]

/-- Witness for C3: of one file-level symlink into the blob store, one
file-level symlink elsewhere, one regular file and one directory symlink,
reset deletes exactly the first. -/
theorem reset_symlinks_deletes_iff_witness :
    ("t/a", Entry.fileLink "/blobs/sha256-x") ∉
      (reset_symlinks [("t/a", Entry.fileLink "/blobs/sha256-x"),
        ("t/b", Entry.fileLink "/other/y"), ("t/c", Entry.file),
        ("t/d", Entry.dirLink "/blobs")] "/blobs").1 ∧
    ("t/b", Entry.fileLink "/other/y") ∈
      (reset_symlinks [("t/a", Entry.fileLink "/blobs/sha256-x"),
        ("t/b", Entry.fileLink "/other/y"), ("t/c", Entry.file),
        ("t/d", Entry.dirLink "/blobs")] "/blobs").1 ∧
    ("t/c", Entry.file) ∈
      (reset_symlinks [("t/a", Entry.fileLink "/blobs/sha256-x"),
        ("t/b", Entry.fileLink "/other/y"), ("t/c", Entry.file),
        ("t/d", Entry.dirLink "/blobs")] "/blobs").1 ∧
    ("t/d", Entry.dirLink "/blobs") ∈
      (reset_symlinks [("t/a", Entry.fileLink "/blobs/sha256-x"),
        ("t/b", Entry.fileLink "/other/y"), ("t/c", Entry.file),
        ("t/d", Entry.dirLink "/blobs")] "/blobs").1 ∧
    ("t/a", Entry.fileLink "/blobs/sha256-x") ∈
      (reset_symlinks [("t/a", Entry.fileLink "/blobs/sha256-x"),
        ("t/b", Entry.fileLink "/other/y"), ("t/c", Entry.file),
        ("t/d", Entry.dirLink "/blobs")] "/blobs").2 := by
  have h := reset_symlinks_deletes_iff "/blobs"
    [("t/a", Entry.fileLink "/blobs/sha256-x"),
     ("t/b", Entry.fileLink "/other/y"), ("t/c", Entry.file),
     ("t/d", Entry.dirLink "/blobs")]
  refine ⟨fun hmem => ?_, ?_, ?_, ?_, ?_⟩
  · exact absurd ((h.1 _ (by decide)).mp hmem) (by decide)
  · exact (h.1 _ (by decide)).mpr (by decide)
  · exact h.2.2.1 "t/c" (by decide)
  · exact h.2.2.2 "t/d" "/blobs" (by decide)
  · exact (h.2.1 _).mpr (by decide)

/-- Helper: a second filter with the same predicate keeps everything. -/
theorem filter_filter_self {α : Type} (p : α → Bool) (l : List α) :
    (l.filter p).filter p = l.filter p := by
  rw [List.filter_filter]
  refine List.filter_congr fun a _ => ?_
  cases h : p a <;> simp [h]

/-- Helper: filtering with a predicate after keeping its complement
leaves nothing. -/
theorem filter_filter_not {α : Type} (p : α → Bool) (l : List α) :
    (l.filter (fun a => !p a)).filter p = [] := by
  rw [List.filter_filter]
  refine List.filter_eq_nil_iff.mpr fun a _ => ?_
  cases h : p a <;> simp [h]

/-- Counterexample to C4 as stated: after the first reset completes, a
symlink to a directory whose link target starts with the blob-store path
is still in the target directory. -/
theorem reset_leaves_matching_dir_symlink :
    ("t/M", Entry.dirLink "/blobs") ∈
      (reset_symlinks [("t/M", Entry.dirLink "/blobs"),
        ("t/a", Entry.fileLink "/blobs/sha256-x")] "/blobs").1 ∧
    py_startswith "/blobs" "/blobs" = true := by
  decide

/-- Claim C4 (amended): running reset twice in a row is idempotent: after
the first reset no file-level symlink matching the blob-store prefix
remains — though matching symlinks to directories survive every reset —
so the second reset deletes zero entries and leaves the directory
unchanged. -/
theorem reset_symlinks_idempotent (blobs_dir : String) (d : Dir) :
    (∀ e ∈ (reset_symlinks d blobs_dir).1, isOllamaFileLink blobs_dir e = false) ∧
    (reset_symlinks (reset_symlinks d blobs_dir).1 blobs_dir).2 = [] ∧
    (reset_symlinks (reset_symlinks d blobs_dir).1 blobs_dir).1
      = (reset_symlinks d blobs_dir).1 := by
  refine ⟨fun e he => ?_, ?_, ?_⟩
  · have := (List.mem_filter.mp he).2
    simpa using this
  · exact filter_filter_not _ d
  · exact filter_filter_self _ d

/-- Witness for C4 at a concrete directory with a surviving file-level
entry and a surviving directory symlink. -/
theorem reset_symlinks_idempotent_witness :
    isOllamaFileLink "/blobs" ("t/b", Entry.fileLink "/other/y") = false ∧
    (reset_symlinks (reset_symlinks [("t/a", Entry.fileLink "/blobs/sha256-z"),
      ("t/b", Entry.fileLink "/other/y"), ("t/M", Entry.dirLink "/blobs")] "/blobs").1
      "/blobs").2 = [] := by
  have h := reset_symlinks_idempotent "/blobs"
    [("t/a", Entry.fileLink "/blobs/sha256-z"),
     ("t/b", Entry.fileLink "/other/y"), ("t/M", Entry.dirLink "/blobs")]
  exact ⟨h.1 _ (by decide), h.2.1⟩

/-- The unhandled Python exceptions the orchestration can die of:
IndexError from get_model_name on a short path, TypeError from Path(None)
when get_model_blob resolved nothing, FileNotFoundError raised by
create_symlink for a missing source, and FileExistsError (an OSError)
from os.symlink when the target path is already occupied. -/
inductive RunErr where
  | indexError
  | typeError
  | fileNotFoundError (src : String)
  | fileExistsError (target : String)
deriving DecidableEq

/-- Source: create_symlink(src, target). Raises FileNotFoundError when the
source path does not exist (os.path.exists, modelled by the fsExists
oracle), then calls os.symlink, which fails with FileExistsError when the
target path is already occupied and otherwise records the link — with src
as its literal link text, and classified by the isDir oracle the way a
later os.walk will classify it — and returns True. Exceptions are
re-raised, never swallowed. -/
def create_symlink (fsExists isDir : String → Bool) (src target : String) (d : Dir) :
    Except RunErr Dir :=
  if !fsExists src then
    Except.error (RunErr.fileNotFoundError src)
  else if d.any (fun e => e.1 == target) then
    Except.error (RunErr.fileExistsError target)
  else
    Except.ok (d ++ [(target,
      if isDir src then Entry.dirLink src else Entry.fileLink src)])

/-- Source: the for loop of the __main__ block. For each manifest path the
loop computes target = RAMALAMA_DIR / Path(get_model_name(file)), then
src = OLLAMA_BLOBS_DIR / Path(get_model_blob(file)) — note that when
get_model_blob returns None, Path(None) raises TypeError — and then calls
create_symlink(src, target). No exception is caught, so the first raised
error stops the loop. Result: the directory state when the loop stopped,
paired with the uncaught exception when there is one. -/
def syncLoop (ramalama_dir blobs_dir : String) (fsExists isDir : String → Bool) :
    List (String × FileRead) → Dir → Dir × Option RunErr
  | [], d => (d, none)
  | (file, fr) :: rest, d =>
    match get_model_name file with
    | none => (d, some RunErr.indexError)
    | some name =>
      match (get_model_blob file fr).1 with
      | none => (d, some RunErr.typeError)
      | some blob =>
        match create_symlink fsExists isDir (pathJoin blobs_dir blob)
            (pathJoin ramalama_dir name) d with
        | Except.error e => (d, some e)
        | Except.ok dNew => syncLoop ramalama_dir blobs_dir fsExists isDir rest dNew

/-- Source: the __main__ block. Always runs reset_symlinks first; with
--reset it stops there, otherwise it runs the creation loop over the
manifest files found under the manifests root. -/
def run_main (ramalama_dir blobs_dir : String) (fsExists isDir : String → Bool)
    (manifests : List (String × FileRead)) (reset : Bool) (d : Dir) :
    Dir × Option RunErr :=
  let d0 := (reset_symlinks d blobs_dir).1
  if reset then (d0, none)
  else syncLoop ramalama_dir blobs_dir fsExists isDir manifests d0

/-- Claim C5: when the source blob path does not exist, create_symlink
fails with FileNotFoundError naming the source and creates no link, and
since the loop catches nothing, the whole run stops there with the
directory unchanged, whatever manifests remain. -/
theorem create_symlink_missing_source (ramalama_dir blobs_dir file name blob : String)
    (fsExists isDir : String → Bool) (fr : FileRead)
    (rest : List (String × FileRead)) (d : Dir)
    (hname : get_model_name file = some name)
    (hblob : (get_model_blob file fr).1 = some blob)
    (hex : fsExists (pathJoin blobs_dir blob) = false) :
    create_symlink fsExists isDir (pathJoin blobs_dir blob) (pathJoin ramalama_dir name) d
      = Except.error (RunErr.fileNotFoundError (pathJoin blobs_dir blob)) ∧
    syncLoop ramalama_dir blobs_dir fsExists isDir ((file, fr) :: rest) d
      = (d, some (RunErr.fileNotFoundError (pathJoin blobs_dir blob))) := by
  have hcreate : create_symlink fsExists isDir (pathJoin blobs_dir blob)
      (pathJoin ramalama_dir name) d
      = Except.error (RunErr.fileNotFoundError (pathJoin blobs_dir blob)) := by
    simp [create_symlink, hex]
  refine ⟨hcreate, ?_⟩
  simp [syncLoop, hname, hblob, hcreate]

/-- Witness for C5: one missing blob aborts a run that still had a
well-formed manifest left. -/
theorem create_symlink_missing_source_witness :
    syncLoop "/rl" "/blobs" (fun _ => false) (fun _ => false)
      [("man/llama3/latest", FileRead.parsed
          (ManifestJson.mk [Layer.mk (some modelMediaType) (some "sha256:a")])),
       ("man/phi/latest", FileRead.parsed
          (ManifestJson.mk [Layer.mk (some modelMediaType) (some "sha256:b")]))] []
      = ([], some (RunErr.fileNotFoundError (pathJoin "/blobs" "sha256-a"))) := by
  have h := create_symlink_missing_source "/rl" "/blobs" "man/llama3/latest"
    "llama3:latest" "sha256-a" (fun _ => false) (fun _ => false)
    (FileRead.parsed (ManifestJson.mk [Layer.mk (some modelMediaType) (some "sha256:a")]))
    [("man/phi/latest", FileRead.parsed
        (ManifestJson.mk [Layer.mk (some modelMediaType) (some "sha256:b")]))] []
    (by decide) (by decide) rfl
  exact h.2

/-- Claim C1 (code behavior at the failing input): for a manifest with no
matching layer, get_model_blob does return None after printing one
diagnostic line, but the loop then evaluates Path(None), which raises
TypeError: the run stops with no symlink created and the remaining,
well-formed manifest is never processed — the loop does not continue. -/
theorem no_matching_layer_aborts_run :
    (get_model_blob "man/llama3/latest" (FileRead.parsed (ManifestJson.mk []))).1 = none ∧
    (get_model_blob "man/llama3/latest" (FileRead.parsed (ManifestJson.mk []))).2
      = ["No matching layer found."] ∧
    syncLoop "/rl" "/blobs" (fun _ => true) (fun _ => false)
      [("man/llama3/latest", FileRead.parsed (ManifestJson.mk [])),
       ("man/phi/latest", FileRead.parsed
          (ManifestJson.mk [Layer.mk (some modelMediaType) (some "sha256:b")]))] []
      = ([], some RunErr.typeError) := by
  refine ⟨rfl, rfl, ?_⟩
  decide

/-- Claim C10: when the first matching layer has no digest key,
get_model_blob returns the empty string rather than None; downstream the
symlink source becomes the blob-store directory itself (joining the empty
relative path is the identity), and since that directory exists the loop
creates a symlink named after the model but pointing at the blob
directory — a symlink that os.walk will report among its dirs. -/
theorem missing_digest_links_blob_dir (ramalama_dir blobs_dir file name : String)
    (fsExists isDir : String → Bool) (data : ManifestJson) (layer : Layer) (d : Dir)
    (hname : get_model_name file = some name)
    (hfind : data.layers.find? (fun l => l.mediaType == some modelMediaType) = some layer)
    (hdig : layer.digest = none)
    (hex : fsExists blobs_dir = true)
    (hdir : isDir blobs_dir = true)
    (htgt : d.any (fun e => e.1 == pathJoin ramalama_dir name) = false) :
    (get_model_blob file (FileRead.parsed data)).1 = some "" ∧
    syncLoop ramalama_dir blobs_dir fsExists isDir [(file, FileRead.parsed data)] d
      = (d ++ [(pathJoin ramalama_dir name, Entry.dirLink blobs_dir)], none) := by
  have hblob : (get_model_blob file (FileRead.parsed data)).1 = some "" := by
    simp [get_model_blob, hfind, hdig]
    rfl
  refine ⟨hblob, ?_⟩
  have hjoin : pathJoin blobs_dir "" = blobs_dir := by simp [pathJoin]
  simp [syncLoop, hname, hblob, create_symlink, hjoin, hex, hdir, htgt]

/-- Witness for C10: a digest-less matching layer produces a model-named
symlink to the blob directory itself. -/
theorem missing_digest_links_blob_dir_witness :
    syncLoop "/rl" "/blobs" (fun s => s == "/blobs") (fun s => s == "/blobs")
      [("man/llama3/latest", FileRead.parsed
          (ManifestJson.mk [Layer.mk (some modelMediaType) none]))] []
      = ([(pathJoin "/rl" "llama3:latest", Entry.dirLink "/blobs")], none) := by
  have h := missing_digest_links_blob_dir "/rl" "/blobs" "man/llama3/latest"
    "llama3:latest" (fun s => s == "/blobs") (fun s => s == "/blobs")
    (ManifestJson.mk [Layer.mk (some modelMediaType) none])
    (Layer.mk (some modelMediaType) none) []
    (by decide) (by decide) rfl (by decide) (by decide) (by decide)
  simpa using h.2

/-- Counterexample to C2 as stated: a digest-less matching layer makes the
first sync create a model-named symlink to the blob directory itself; the
second sync's reset cannot delete it (os.walk reports it among dirs), so
the second creation loop aborts on FileExistsError and the remaining
model's just-deleted link is not recreated: the final directories of one
run and of two runs differ. -/
theorem sync_twice_loses_links :
    run_main "/rl" "/blobs"
      (fun s => s == "/blobs" || s == "/blobs/sha256-b") (fun s => s == "/blobs")
      [("man/llama3/latest", FileRead.parsed
          (ManifestJson.mk [Layer.mk (some modelMediaType) none])),
       ("man/phi/latest", FileRead.parsed
          (ManifestJson.mk [Layer.mk (some modelMediaType) (some "sha256:b")]))] false []
      = ([("/rl/llama3:latest", Entry.dirLink "/blobs"),
          ("/rl/phi:latest", Entry.fileLink "/blobs/sha256-b")], none) ∧
    run_main "/rl" "/blobs"
      (fun s => s == "/blobs" || s == "/blobs/sha256-b") (fun s => s == "/blobs")
      [("man/llama3/latest", FileRead.parsed
          (ManifestJson.mk [Layer.mk (some modelMediaType) none])),
       ("man/phi/latest", FileRead.parsed
          (ManifestJson.mk [Layer.mk (some modelMediaType) (some "sha256:b")]))] false
      [("/rl/llama3:latest", Entry.dirLink "/blobs"),
       ("/rl/phi:latest", Entry.fileLink "/blobs/sha256-b")]
      = ([("/rl/llama3:latest", Entry.dirLink "/blobs")],
         some (RunErr.fileExistsError "/rl/llama3:latest")) ∧
    ([("/rl/llama3:latest", Entry.dirLink "/blobs")] : Dir)
      ≠ [("/rl/llama3:latest", Entry.dirLink "/blobs"),
         ("/rl/phi:latest", Entry.fileLink "/blobs/sha256-b")] := by
  decide

/-- Helper: inversion of a successful create_symlink: the new directory is
the old one plus the one recorded link, classified by the isDir oracle. -/
theorem create_symlink_ok_shape (fsExists isDir : String → Bool) (src target : String)
    (d dNew : Dir) (h : create_symlink fsExists isDir src target d = Except.ok dNew) :
    dNew = d ++ [(target,
      if isDir src then Entry.dirLink src else Entry.fileLink src)] := by
  unfold create_symlink at h
  split at h
  · exact absurd h (by simp)
  · split at h
    · exact absurd h (by simp)
    · injection h with h2
      exact h2.symm

/-- Helper: when every blob a listed manifest resolves to joins to a
non-directory path under the blob store, the creation loop only adds
file-level symlinks pointing into the store, so the entries that do not
match the reset test are exactly preserved. -/
theorem syncLoop_filter_not_link (ramalama_dir blobs_dir : String)
    (fsExists isDir : String → Bool) (ms : List (String × FileRead)) :
    (∀ m ∈ ms, ((get_model_blob m.1 m.2).1.all fun b =>
        !isDir (pathJoin blobs_dir b)
          && py_startswith (pathJoin blobs_dir b) blobs_dir) = true) →
    ∀ d : Dir, ((syncLoop ramalama_dir blobs_dir fsExists isDir ms d).1).filter
        (fun e => !isOllamaFileLink blobs_dir e)
      = d.filter (fun e => !isOllamaFileLink blobs_dir e) := by
  induction ms with
  | nil => intro _ d; rfl
  | cons m rest ih =>
    intro hms d
    obtain ⟨file, fr⟩ := m
    have hrest := fun m hm => hms m (List.mem_cons_of_mem _ hm)
    cases hname : get_model_name file with
    | none => simp [syncLoop, hname]
    | some name =>
      cases hblob : (get_model_blob file fr).1 with
      | none => simp [syncLoop, hname, hblob]
      | some blob =>
        have hm := hms (file, fr) (List.mem_cons_self _ _)
        rw [hblob] at hm
        simp only [Option.all_some, Bool.and_eq_true, Bool.not_eq_true'] at hm
        obtain ⟨hdir, hsw⟩ := hm
        cases hcr : create_symlink fsExists isDir (pathJoin blobs_dir blob)
            (pathJoin ramalama_dir name) d with
        | error e => simp [syncLoop, hname, hblob, hcr]
        | ok dNew =>
          have hshape := create_symlink_ok_shape fsExists isDir (pathJoin blobs_dir blob)
            (pathJoin ramalama_dir name) d dNew hcr
          simp only [syncLoop, hname, hblob, hcr]
          rw [ih hrest dNew, hshape, List.filter_append]
          simp [hdir, isOllamaFileLink, hsw]

/-- Claim C2 (amended): when every blob the manifests resolve to joins to
a non-directory path under the blob store (no matching layer with a
missing or absolute digest), running the sync mode twice with manifests
and blob store unchanged produces exactly the state one run produces: the
second run's reset deletes precisely the file-level symlinks the first
creation loop added, and the loop then repeats identically. -/
theorem sync_idempotent_of_file_blobs (ramalama_dir blobs_dir : String)
    (fsExists isDir : String → Bool) (manifests : List (String × FileRead)) (d : Dir)
    (hms : ∀ m ∈ manifests, ((get_model_blob m.1 m.2).1.all fun b =>
        !isDir (pathJoin blobs_dir b)
          && py_startswith (pathJoin blobs_dir b) blobs_dir) = true) :
    run_main ramalama_dir blobs_dir fsExists isDir manifests false
        (run_main ramalama_dir blobs_dir fsExists isDir manifests false d).1
      = run_main ramalama_dir blobs_dir fsExists isDir manifests false d := by
  have key : (reset_symlinks (syncLoop ramalama_dir blobs_dir fsExists isDir manifests
      ((reset_symlinks d blobs_dir).1)).1 blobs_dir).1 = (reset_symlinks d blobs_dir).1 := by
    show ((syncLoop ramalama_dir blobs_dir fsExists isDir manifests
        (d.filter (fun e => !isOllamaFileLink blobs_dir e))).1).filter
        (fun e => !isOllamaFileLink blobs_dir e)
      = d.filter (fun e => !isOllamaFileLink blobs_dir e)
    rw [syncLoop_filter_not_link ramalama_dir blobs_dir fsExists isDir manifests hms,
      filter_filter_self]
  show syncLoop ramalama_dir blobs_dir fsExists isDir manifests
      (reset_symlinks (syncLoop ramalama_dir blobs_dir fsExists isDir manifests
        ((reset_symlinks d blobs_dir).1)).1 blobs_dir).1
    = syncLoop ramalama_dir blobs_dir fsExists isDir manifests
        ((reset_symlinks d blobs_dir).1)
  rw [key]

/-- Witness for C2 at one well-formed manifest whose blob is an existing
non-directory file of the blob store. -/
theorem sync_idempotent_of_file_blobs_witness :
    run_main "/rl" "/blobs" (fun s => s == "/blobs/sha256-a") (fun _ => false)
      [("man/llama3/latest", FileRead.parsed
          (ManifestJson.mk [Layer.mk (some modelMediaType) (some "sha256:a")]))] false
      (run_main "/rl" "/blobs" (fun s => s == "/blobs/sha256-a") (fun _ => false)
        [("man/llama3/latest", FileRead.parsed
            (ManifestJson.mk [Layer.mk (some modelMediaType) (some "sha256:a")]))] false []).1
      = run_main "/rl" "/blobs" (fun s => s == "/blobs/sha256-a") (fun _ => false)
        [("man/llama3/latest", FileRead.parsed
            (ManifestJson.mk [Layer.mk (some modelMediaType) (some "sha256:a")]))] false [] :=
  sync_idempotent_of_file_blobs "/rl" "/blobs" (fun s => s == "/blobs/sha256-a")
    (fun _ => false)
    [("man/llama3/latest", FileRead.parsed
        (ManifestJson.mk [Layer.mk (some modelMediaType) (some "sha256:a")]))] []
    (by decide)

/-- A node of the directory tree under the manifests root: a regular file
or a subdirectory with its children. -/
inductive FsNode where
  | file (name : String)
  | dir (name : String) (children : List FsNode)

mutual

/-- The file paths os.walk reports under one node, each joined with
os.path.join as in the source loop (traversal order is not modelled; the
collected set of paths is). -/
def walkNode (root : String) : FsNode → List String
  | FsNode.file name => [os_path_join root name]
  | FsNode.dir name children => walkList (os_path_join root name) children

/-- The file paths os.walk reports under a list of sibling nodes. -/
def walkList (root : String) : List FsNode → List String
  | [] => []
  | n :: ns => walkNode root n ++ walkList root ns

end

/-- What the scanner finds at its root: the root directory may be missing,
or it exists with its children. -/
inductive WalkInput where
  | missingRoot
  | rootDir (children : List FsNode)

/-- Source: get_filenames(folder). Appends os.path.join(root, file) for
every file reported by os.walk(folder). os.walk is called with its default
onerror=None, which ignores the scandir failure on a missing root, so the
walk yields nothing and no exception escapes; the Except type records that
nothing is ever raised. -/
def get_filenames (folder : String) (w : WalkInput) : Except String (List String) :=
  match w with
  | WalkInput.missingRoot => Except.ok []
  | WalkInput.rootDir cs => Except.ok (walkList folder cs)

mutual

/-- p is the joined path of a regular file reachable from root through
this node. -/
inductive HasFile : String → FsNode → String → Prop where
  | file (root name : String) : HasFile root (FsNode.file name) (os_path_join root name)
  | dir (root name : String) (cs : List FsNode) (p : String) :
      HasFileList (os_path_join root name) cs p → HasFile root (FsNode.dir name cs) p

/-- p is the joined path of a regular file reachable from root through one
of these sibling nodes. -/
inductive HasFileList : String → List FsNode → String → Prop where
  | head (root : String) (n : FsNode) (ns : List FsNode) (p : String) :
      HasFile root n p → HasFileList root (n :: ns) p
  | tail (root : String) (n : FsNode) (ns : List FsNode) (p : String) :
      HasFileList root ns p → HasFileList root (n :: ns) p

end

mutual

/-- Helper: every reachable file path is collected by walkNode. -/
theorem hasFile_mem_walkNode {root : String} {n : FsNode} {p : String}
    (h : HasFile root n p) : p ∈ walkNode root n :=
  match h with
  | HasFile.file root name => by simp [walkNode]
  | HasFile.dir root name cs p h2 => by
      simpa [walkNode] using hasFileList_mem_walkList h2

/-- Helper: every reachable file path is collected by walkList. -/
theorem hasFileList_mem_walkList {root : String} {ns : List FsNode} {p : String}
    (h : HasFileList root ns p) : p ∈ walkList root ns :=
  match h with
  | HasFileList.head root n ns p h2 => by
      simp only [walkList, List.mem_append]
      exact Or.inl (hasFile_mem_walkNode h2)
  | HasFileList.tail root n ns p h2 => by
      simp only [walkList, List.mem_append]
      exact Or.inr (hasFileList_mem_walkList h2)

end

/-- Counterexample to C9 as stated: on a missing manifests root nothing
propagates — get_filenames completes and returns the empty list. -/
theorem get_filenames_missing_root_ok :
    (get_filenames "/manifests" WalkInput.missingRoot).isOk = true ∧
    get_filenames "/manifests" WalkInput.missingRoot = Except.ok [] :=
  ⟨rfl, rfl⟩

/-- Claim C9 (amended): when the manifests root does not exist, os.walk
ignores the failure and get_filenames returns an empty list without
raising; for an existing root it returns a path for every regular file
found by recursive traversal, with no filtering by extension. -/
theorem get_filenames_all_files (folder : String) (cs : List FsNode) (p : String)
    (h : HasFileList folder cs p) :
    get_filenames folder WalkInput.missingRoot = Except.ok [] ∧
    get_filenames folder (WalkInput.rootDir cs) = Except.ok (walkList folder cs) ∧
    p ∈ walkList folder cs :=
  ⟨rfl, rfl, hasFileList_mem_walkList h⟩

/-- Witness for C9 at a concrete two-level tree: the nested tag file of a
model directory is listed. -/
theorem get_filenames_all_files_witness :
    os_path_join (os_path_join "/manifests" "llama3") "latest"
      ∈ walkList "/manifests" [FsNode.dir "llama3" [FsNode.file "latest"]] :=
  (get_filenames_all_files "/manifests" [FsNode.dir "llama3" [FsNode.file "latest"]]
    (os_path_join (os_path_join "/manifests" "llama3") "latest")
    (HasFileList.head _ _ _ _ (HasFile.dir _ _ _ _
      (HasFileList.head _ _ _ _ (HasFile.file _ _))))).2.2
